import Mathlib

/-!
Verification of the section-binding coordination layer of the
CIN-Requirements frontend.

The definitions below are a shallow embedding of the TypeScript source:

* `getUserColor`                      — src/frontend/src/lib/liveblocks.ts
* `useDocument` state and operations
  (`loadDocument`, `updateContent`, `deleteSection`, `activateSection`,
  `deactivateSection`)                — src/frontend/src/lib/liveblocks.ts
* the section-tree projection
  (`rootSections`, `getChildren`)     — SectionPanel component
* the cursor-rendering projection     — CollaborationCursors.tsx

Asynchronous persistence calls are modelled by explicit outcome
parameters (did the call succeed, and what record did the server
return); each operation returns the successor state, the exact list of
outbound persistence calls it issued, and `none` for its result when
the TypeScript code would have thrown (surfacing the error via
`onError` and rethrowing).
-/

namespace CIN

/-! ## Data model (mirrors `@/types` as used by the frontend) -/

/-- `BindingType` enum: `discussion | editing | reference | question | approval`. -/
inductive BindingType where
  | discussion
  | editing
  | reference
  | question
  | approval
deriving DecidableEq

/-- `SectionStatus` enum: `empty | draft | needs_review | approved | disputed`. -/
inductive SectionStatus where
  | empty
  | draft
  | needs_review
  | approved
  | disputed
deriving DecidableEq

/-- A node of the document outline, with the fields the frontend reads. -/
structure Section where
  id : String
  section_number : String
  title : String
  parent_id : Option String
  order : Int
  status : SectionStatus
deriving DecidableEq

/-- A section binding record as held in the frontend ledger. -/
structure SectionBinding where
  id : String
  section_id : String
  binding_type : BindingType
  message_id : Option String
  is_active : Bool
deriving DecidableEq

/-- The opaque document content payload (`Record<string, unknown>`);
modelled as an association list whose values are never inspected. -/
abbrev ContentPayload := List (String × String)

/-- A document together with its content blob. -/
structure DocumentWithContent where
  content : ContentPayload
deriving DecidableEq

/-! ## `getUserColor` (src/frontend/src/lib/liveblocks.ts, lines 37-55) -/

/-- The fixed eight-color palette declared inside `getUserColor`. -/
def userColors : List String :=
  ["#E57373", "#81C784", "#64B5F6", "#FFD54F",
   "#BA68C8", "#4DB6AC", "#FF8A65", "#A1887F"]

/-- JavaScript `ToInt32`: reduce an integer to the signed 32-bit range. -/
def toInt32 (n : Int) : Int :=
  (n + 2 ^ 31) % 2 ^ 32 - 2 ^ 31

/-- One step of the hash loop:
`hash = userId.charCodeAt(i) + ((hash << 5) - hash)`.
`hash << 5` coerces its operand to int32 and keeps the low 32 bits of
the shift; the outer addition and subtraction are exact number
arithmetic. -/
def hashStep (hash : Int) (c : Nat) : Int :=
  (c : Int) + (toInt32 (toInt32 hash * 32) - hash)

/-- The UTF-16 code units of a string, as produced by `charCodeAt`. -/
def utf16CodeUnits (s : String) : List Nat :=
  s.data.foldr
    (fun c acc =>
      if c.toNat < 0x10000 then
        c.toNat :: acc
      else
        (0xD800 + (c.toNat - 0x10000) / 0x400) ::
        (0xDC00 + (c.toNat - 0x10000) % 0x400) :: acc)
    []

/-- `getUserColor(userId)`: hash the id and index into the palette with
`Math.abs(hash) % colors.length`. -/
def getUserColor (userId : String) : String :=
  let hash := (utf16CodeUnits userId).foldl hashStep 0
  userColors.get ⟨hash.natAbs % userColors.length, Nat.mod_lt _ (by decide)⟩

/-! ## Section-tree projection (SectionPanel component) -/

/-- JavaScript truthiness test `!s.parent_id` for a nullable string
field: `null`, `undefined` and the empty string are falsy. -/
def jsNoParent : Option String → Bool
  | none => true
  | some s => s == ""

/-- Ordering of sections by their `order` field, as induced by the
comparator `(a, b) => a.order - b.order`. -/
def sectionLE (a b : Section) : Prop := a.order ≤ b.order

instance : DecidableRel sectionLE := fun a b => inferInstanceAs (Decidable (a.order ≤ b.order))

instance : IsTotal Section sectionLE := ⟨fun a b => Int.le_total a.order b.order⟩

instance : IsTrans Section sectionLE := ⟨fun _ _ _ h1 h2 => le_trans h1 h2⟩

/-- The stable sort `.sort((a, b) => a.order - b.order)` used on root
and child lists. -/
def sortByOrder (l : List Section) : List Section :=
  List.insertionSort sectionLE l

/-- `sections.filter((s) => !s.parent_id)`. -/
def rootSections (sections : List Section) : List Section :=
  sections.filter (fun s => jsNoParent s.parent_id)

/-- The root list as rendered: `rootSections.sort((a, b) => a.order - b.order)`. -/
def sortedRootSections (sections : List Section) : List Section :=
  sortByOrder (rootSections sections)

/-- `getChildren(parentId)`: the sections whose `parent_id` equals
`parentId`, sorted by `order`. -/
def getChildren (sections : List Section) (parentId : String) : List Section :=
  sortByOrder (sections.filter (fun s => decide (s.parent_id = some parentId)))

/-! ## `useDocument` state and operations
(src/frontend/src/lib/liveblocks.ts, lines 73-294)

The hook's state variables become the fields of `DocState`; `error`
records whether the `error` state variable holds a non-null value
(only `loadDocument` writes it). -/

/-- The state owned by the `useDocument` hook. -/
structure DocState where
  document : Option DocumentWithContent
  sections : List Section
  activeBindings : List SectionBinding
  activeSectionId : Option String
  isLoading : Bool
  error : Bool
deriving DecidableEq

/-- An outbound persistence call, as issued through the `api` client. -/
inductive PCall where
  | updateBinding (bindingId : String) (is_active : Bool)
  | createBinding (sectionId : String) (binding_type : BindingType) (messageId : Option String)
  | deleteSectionCall (sectionId : String)
  | updateDocumentCall (content : ContentPayload)
deriving DecidableEq

/-- Outcome of one operation: the successor state, the persistence
calls issued (in order, including a final failing call), and `some`
result when the operation returned normally, `none` when it threw. -/
structure OpOutcome (α : Type) where
  state : DocState
  calls : List PCall
  result : Option α
deriving DecidableEq

/-- `loadDocument`: `Promise.all` of the three fetches; on success all
three state slices are replaced and `error` is cleared, on any failure
the catch block only records the error. Each fetch outcome is an
explicit `Option` argument (`none` = that fetch rejected). -/
def loadDocument (st : DocState) (doc : Option DocumentWithContent)
    (sectionList : Option (List Section)) (bindings : Option (List SectionBinding)) :
    DocState :=
  match doc, sectionList, bindings with
  | some d, some ss, some bs =>
      { st with document := some d, sections := ss, activeBindings := bs,
                error := false, isLoading := false }
  | _, _, _ =>
      { st with error := true, isLoading := false }

/-- `updateContent(content)`: `await api.updateDocument` first, then on
success `setDocument((prev) => (prev ? { ...prev, content } : null))`;
on failure the catch block rethrows without touching state. -/
def updateContent (st : DocState) (content : ContentPayload) (updateOk : Bool) :
    OpOutcome Unit :=
  if updateOk then
    { state := { st with document := st.document.map (fun d => { d with content := content }) },
      calls := [.updateDocumentCall content],
      result := some () }
  else
    { state := st, calls := [.updateDocumentCall content], result := none }

/-- `deleteSection(sectionId)`: `await api.deleteSection`, then filter
the section out of the list and clear `activeSectionId` when it was the
deleted section; the local binding ledger is not touched. -/
def deleteSection (st : DocState) (sectionId : String) (deleteOk : Bool) :
    OpOutcome Unit :=
  if deleteOk then
    { state := { st with
        sections := st.sections.filter (fun s => decide (s.id ≠ sectionId)),
        activeSectionId :=
          if st.activeSectionId = some sectionId then none else st.activeSectionId },
      calls := [.deleteSectionCall sectionId],
      result := some () }
  else
    { state := st, calls := [.deleteSectionCall sectionId], result := none }

/-- `activateSection(sectionId, bindingType, messageId)`:
find the current binding (`b.section_id === activeSectionId && b.is_active`),
persist its deactivation when present, then persist the new binding and
apply the local update
`setActiveBindings([...prev.filter(b => b.section_id !== sectionId || !b.is_active), binding])`
and `setActiveSectionId(sectionId)`. `deactivateOk` is the outcome of
the deactivation call; `createRes` is the record returned by the create
call, `none` when it rejected (any failure propagates through the
catch, leaving state untouched). -/
def activateSection (st : DocState) (sectionId : String) (bindingType : BindingType)
    (messageId : Option String) (deactivateOk : Bool) (createRes : Option SectionBinding) :
    OpOutcome SectionBinding :=
  match st.activeBindings.find?
      (fun b => decide (some b.section_id = st.activeSectionId) && b.is_active) with
  | some currentBinding =>
      if deactivateOk then
        match createRes with
        | some binding =>
            { state := { st with
                activeBindings :=
                  st.activeBindings.filter
                      (fun b => decide (b.section_id ≠ sectionId) || !b.is_active)
                    ++ [binding],
                activeSectionId := some sectionId },
              calls := [.updateBinding currentBinding.id false,
                        .createBinding sectionId bindingType messageId],
              result := some binding }
        | none =>
            { state := st,
              calls := [.updateBinding currentBinding.id false,
                        .createBinding sectionId bindingType messageId],
              result := none }
      else
        { state := st,
          calls := [.updateBinding currentBinding.id false],
          result := none }
  | none =>
      match createRes with
      | some binding =>
          { state := { st with
              activeBindings :=
                st.activeBindings.filter
                    (fun b => decide (b.section_id ≠ sectionId) || !b.is_active)
                  ++ [binding],
              activeSectionId := some sectionId },
            calls := [.createBinding sectionId bindingType messageId],
            result := some binding }
      | none =>
          { state := st,
            calls := [.createBinding sectionId bindingType messageId],
            result := none }

/-- `deactivateSection(sectionId)`: find an active binding on the
section; when present persist `is_active: false`, mirror the flag into
the local ledger, and finally clear `activeSectionId` when it pointed
at this section. When no binding is found no call is made but the
`activeSectionId` check still runs. -/
def deactivateSection (st : DocState) (sectionId : String) (updateOk : Bool) :
    OpOutcome Unit :=
  match st.activeBindings.find?
      (fun b => decide (b.section_id = sectionId) && b.is_active) with
  | some binding =>
      if updateOk then
        { state := { st with
            activeBindings :=
              st.activeBindings.map
                (fun b => if b.id = binding.id then { b with is_active := false } else b),
            activeSectionId :=
              if st.activeSectionId = some sectionId then none else st.activeSectionId },
          calls := [.updateBinding binding.id false],
          result := some () }
      else
        { state := st, calls := [.updateBinding binding.id false], result := none }
  | none =>
      { state := { st with
          activeSectionId :=
            if st.activeSectionId = some sectionId then none else st.activeSectionId },
        calls := [],
        result := some () }

/-! ## Cursor-rendering projection (CollaborationCursors.tsx) -/

/-- A cursor position in a presence record. -/
structure CursorPos where
  x : Int
  y : Int
deriving DecidableEq

/-- The slice of a presence record the cursor layer reads. -/
structure PresenceData where
  cursor : Option CursorPos
deriving DecidableEq

/-- Identity metadata carried in `info`. -/
structure CollabUserInfo where
  name : String
  color : String
deriving DecidableEq

/-- One entry of `useOthers()`. -/
structure RemoteParticipant where
  connectionId : Nat
  presence : PresenceData
  info : CollabUserInfo
deriving DecidableEq

/-- The rendered cursor list: `others.map(...)` returns `null` for a
participant whose `presence.cursor` is falsy, so only participants with
a cursor produce an entry (keyed by `connectionId`). -/
def renderedCursors (others : List RemoteParticipant) : List (Nat × CursorPos × CollabUserInfo) :=
  others.filterMap (fun o =>
    match o.presence.cursor with
    | some c => some (o.connectionId, c, o.info)
    | none => none)

/-- One entry of the `others` list returned by `useCollaborators`. -/
structure Collaborator where
  id : Nat
  info : CollabUserInfo
  presence : PresenceData
deriving DecidableEq

/-- `useCollaborators().others`: every remote participant, regardless
of cursor state. -/
def collaboratorOthers (others : List RemoteParticipant) : List Collaborator :=
  others.map (fun o => { id := o.connectionId, info := o.info, presence := o.presence })

/-! ## Concrete instances used by the scenario theorems and witnesses -/

/-- The hook state right after mount, before any data arrives. -/
def emptyState : DocState :=
  { document := none, sections := [], activeBindings := [], activeSectionId := none,
    isLoading := true, error := false }

/-- Binding returned by the server for `activate("s1", "discussion")`. -/
def c1binding1 : SectionBinding :=
  { id := "b1", section_id := "s1", binding_type := .discussion,
    message_id := none, is_active := true }

/-- Binding returned by the server for `activate("s2", "editing")`. -/
def c1binding2 : SectionBinding :=
  { id := "b2", section_id := "s2", binding_type := .editing,
    message_id := none, is_active := true }

/-- State after `activateSection("s1", "discussion")` succeeds. -/
def c1state1 : DocState :=
  (activateSection emptyState "s1" .discussion none true (some c1binding1)).state

/-- State after the subsequent `activateSection("s2", "editing")` succeeds. -/
def c1state2 : DocState :=
  (activateSection c1state1 "s2" .editing none true (some c1binding2)).state

/-- An active binding on section `sA`. -/
def c2binding : SectionBinding :=
  { id := "bA", section_id := "sA", binding_type := .discussion,
    message_id := none, is_active := true }

/-- A state focused on `sA` with `c2binding` active. -/
def c2state : DocState :=
  { document := none, sections := [], activeBindings := [c2binding],
    activeSectionId := some "sA", isLoading := false, error := false }

/-- The section deleted in the C4 scenario. -/
def c4section : Section :=
  { id := "s1", section_number := "1", title := "Introduction",
    parent_id := none, order := 0, status := .draft }

/-- The active binding on `c4section`. -/
def c4binding : SectionBinding :=
  { id := "b1", section_id := "s1", binding_type := .editing,
    message_id := none, is_active := true }

/-- A state focused on `c4section` with its binding active. -/
def c4state : DocState :=
  { document := none, sections := [c4section], activeBindings := [c4binding],
    activeSectionId := some "s1", isLoading := false, error := false }

/-- The content held locally before the C5 update attempt. -/
def c5oldContent : ContentPayload := [("body", "old text")]

/-- The content payload submitted in the C5 update attempt. -/
def c5newContent : ContentPayload := [("body", "new text")]

/-- A state holding a loaded document with `c5oldContent`. -/
def c5state : DocState :=
  { document := some { content := c5oldContent }, sections := [], activeBindings := [],
    activeSectionId := none, isLoading := false, error := false }

/-- A previously loaded state used to exercise `loadDocument` reloads. -/
def c6state : DocState :=
  { document := some { content := [("body", "kept")] },
    sections := [c4section], activeBindings := [c4binding],
    activeSectionId := some "s1", isLoading := false, error := false }

/-- A freshly fetched document used in the C6 success case. -/
def c6doc : DocumentWithContent := { content := [("body", "fetched")] }

/-- Root section of the tree scenario (`id:"s1", parent:null, order:0`). -/
def c7root : Section :=
  { id := "s1", section_number := "1", title := "Root",
    parent_id := none, order := 0, status := .empty }

/-- Child section of the tree scenario (`id:"s2", parent:"s1", order:0`). -/
def c7child : Section :=
  { id := "s2", section_number := "1.1", title := "Child",
    parent_id := some "s1", order := 0, status := .empty }

/-- A remote participant whose presence has `cursor: null`. -/
def c8cursorless : RemoteParticipant :=
  { connectionId := 7,
    presence := { cursor := none },
    info := { name := "Ada", color := "#E57373" } }

/-- A remote participant currently pointing inside the canvas. -/
def c8pointing : RemoteParticipant :=
  { connectionId := 9,
    presence := { cursor := some { x := 10, y := 20 } },
    info := { name := "Grace", color := "#64B5F6" } }

/-- A state focused on `sA` used for the C9 no-op witness. -/
def c9state : DocState :=
  { document := none, sections := [], activeBindings := [c2binding],
    activeSectionId := some "sA", isLoading := false, error := false }

/-! ## Helper lemmas -/

/-- When the state is focused on `A` and some active binding on `A` is
in the ledger, the `find?` at the head of `activateSection` locates a
binding that is on `A` and active. -/
theorem find_current_of_active (st : DocState) (A : String)
    (hfoc : st.activeSectionId = some A)
    (hex : ∃ b ∈ st.activeBindings, b.section_id = A ∧ b.is_active = true) :
    ∃ cb, st.activeBindings.find?
        (fun b => decide (some b.section_id = st.activeSectionId) && b.is_active) = some cb ∧
      cb.section_id = A ∧ cb.is_active = true := by
  obtain ⟨b, hb, hbA, hbact⟩ := hex
  cases hfind : st.activeBindings.find?
      (fun b => decide (some b.section_id = st.activeSectionId) && b.is_active) with
  | none =>
      exfalso
      have hnone := List.find?_eq_none.mp hfind b hb
      apply hnone
      simp [hfoc, hbA, hbact]
  | some cb =>
      have hp := List.find?_some hfind
      simp only [hfoc, Bool.and_eq_true, decide_eq_true_eq, Option.some.injEq] at hp
      exact ⟨cb, rfl, hp.1, hp.2⟩

/-! ## Claim theorems -/

/-- Claim C10: `getUserColor` always returns an element of the fixed
eight-color palette declared in the function, and equal user ids yield
the same color. -/
theorem getUserColor_palette_deterministic :
    (∀ userId : String, getUserColor userId ∈ userColors) ∧
    (∀ u v : String, u = v → getUserColor u = getUserColor v) := by
  constructor
  · intro userId
    unfold getUserColor
    exact List.get_mem _ _ _
  · intro u v h
    rw [h]

/-- Witness for C10 at the concrete id `"alice"`. -/
theorem getUserColor_palette_deterministic_witness :
    getUserColor "alice" ∈ userColors ∧ getUserColor "alice" = getUserColor "alice" :=
  ⟨getUserColor_palette_deterministic.1 "alice",
   getUserColor_palette_deterministic.2 "alice" "alice" rfl⟩

/-- Claim C7: the tree projection yields as roots exactly the sections
with no parent sorted ascending by `order`, and as children of an id
exactly the sections whose `parent_id` equals that id, sorted ascending
by `order`; in particular the two-section scenario gives root `[s1]`
and children of `s1` equal to `[s2]`. -/
theorem sectionTree_roots_children (sections : List Section) (pid : String)
    (hne : ∀ s ∈ sections, s.parent_id ≠ some "") :
    (sortedRootSections sections).Perm
        (sections.filter (fun s => decide (s.parent_id = none))) ∧
    List.Sorted sectionLE (sortedRootSections sections) ∧
    (getChildren sections pid).Perm
        (sections.filter (fun s => decide (s.parent_id = some pid))) ∧
    List.Sorted sectionLE (getChildren sections pid) ∧
    sortedRootSections [c7root, c7child] = [c7root] ∧
    getChildren [c7root, c7child] "s1" = [c7child] := by
  have hroot : rootSections sections
      = sections.filter (fun s => decide (s.parent_id = none)) := by
    unfold rootSections
    apply List.filter_congr
    intro s hs
    cases hpar : s.parent_id with
    | none => simp [jsNoParent]
    | some t =>
        have ht : ¬(t = "") := by
          intro h
          exact hne s hs (by rw [hpar, h])
        simp [jsNoParent, ht]
  refine ⟨?_, ?_, ?_, ?_, by decide, by decide⟩
  · have hperm1 : (sortedRootSections sections).Perm (rootSections sections) :=
      List.perm_insertionSort sectionLE (rootSections sections)
    exact hroot ▸ hperm1
  · exact List.sorted_insertionSort sectionLE (rootSections sections)
  · exact List.perm_insertionSort sectionLE
      (sections.filter (fun s => decide (s.parent_id = some pid)))
  · exact List.sorted_insertionSort sectionLE
      (sections.filter (fun s => decide (s.parent_id = some pid)))

/-- Witness for C7 at the two-section scenario list. -/
theorem sectionTree_roots_children_witness :
    (∀ s ∈ [c7root, c7child], s.parent_id ≠ some "") ∧
    ((sortedRootSections [c7root, c7child]).Perm
        ([c7root, c7child].filter (fun s => decide (s.parent_id = none))) ∧
      List.Sorted sectionLE (sortedRootSections [c7root, c7child]) ∧
      (getChildren [c7root, c7child] "s1").Perm
        ([c7root, c7child].filter (fun s => decide (s.parent_id = some "s1"))) ∧
      List.Sorted sectionLE (getChildren [c7root, c7child] "s1") ∧
      sortedRootSections [c7root, c7child] = [c7root] ∧
      getChildren [c7root, c7child] "s1" = [c7child]) :=
  ⟨by decide, sectionTree_roots_children [c7root, c7child] "s1" (by decide)⟩

/-- Claim C8: a remote participant whose presence has no cursor
produces no rendered cursor, while still appearing in the collaborator
list derived from the same presence data. -/
theorem cursorless_participant_not_rendered
    (others : List RemoteParticipant) (o : RemoteParticipant)
    (ho : o ∈ others)
    (hnodup : (others.map (fun p => p.connectionId)).Nodup)
    (hc : o.presence.cursor = none) :
    (∀ e ∈ renderedCursors others, e.1 ≠ o.connectionId) ∧
    ({ id := o.connectionId, info := o.info, presence := o.presence } : Collaborator)
        ∈ collaboratorOthers others := by
  constructor
  · intro e he heq
    obtain ⟨p, hp, hpe⟩ := List.mem_filterMap.mp he
    cases hcur : p.presence.cursor with
    | none =>
        rw [hcur] at hpe
        exact Option.noConfusion hpe
    | some c =>
        rw [hcur] at hpe
        have he1 : e.1 = p.connectionId := by
          rw [← Option.some.injEq] at hpe
          cases hpe
          rfl
        have hpc : p.connectionId = o.connectionId := by rw [← he1, heq]
        have hpo : p = o := List.inj_on_of_nodup_map hnodup hp ho hpc
        rw [hpo, hc] at hcur
        exact Option.noConfusion hcur
  · exact List.mem_map.mpr ⟨o, ho, rfl⟩

/-- Witness for C8 with one cursorless and one pointing participant. -/
theorem cursorless_participant_not_rendered_witness :
    c8cursorless ∈ [c8cursorless, c8pointing] ∧
    c8cursorless.presence.cursor = none ∧
    ((∀ e ∈ renderedCursors [c8cursorless, c8pointing], e.1 ≠ c8cursorless.connectionId) ∧
      ({ id := c8cursorless.connectionId, info := c8cursorless.info,
         presence := c8cursorless.presence } : Collaborator)
        ∈ collaboratorOthers [c8cursorless, c8pointing]) :=
  ⟨by decide, rfl,
   cursorless_participant_not_rendered [c8cursorless, c8pointing] c8cursorless
     (by decide) (by decide) rfl⟩

/-- Claim C6: `loadDocument` replaces all three state slices when all
three fetches succeed, and leaves all three untouched (recording a load
failure) when any fetch fails. -/
theorem loadDocument_all_or_nothing
    (st : DocState) (doc : Option DocumentWithContent)
    (secs : Option (List Section)) (binds : Option (List SectionBinding)) :
    ((doc = none ∨ secs = none ∨ binds = none) →
        (loadDocument st doc secs binds).document = st.document ∧
        (loadDocument st doc secs binds).sections = st.sections ∧
        (loadDocument st doc secs binds).activeBindings = st.activeBindings ∧
        (loadDocument st doc secs binds).error = true) ∧
    (∀ d ss bs, doc = some d → secs = some ss → binds = some bs →
        (loadDocument st doc secs binds).document = some d ∧
        (loadDocument st doc secs binds).sections = ss ∧
        (loadDocument st doc secs binds).activeBindings = bs ∧
        (loadDocument st doc secs binds).error = false) := by
  constructor
  · intro h
    unfold loadDocument
    cases doc with
    | none => exact ⟨rfl, rfl, rfl, rfl⟩
    | some d =>
        cases secs with
        | none => exact ⟨rfl, rfl, rfl, rfl⟩
        | some ss =>
            cases binds with
            | none => exact ⟨rfl, rfl, rfl, rfl⟩
            | some bs => rcases h with h | h | h <;> exact Option.noConfusion h
  · intro d ss bs h1 h2 h3
    subst h1
    subst h2
    subst h3
    exact ⟨rfl, rfl, rfl, rfl⟩

/-- Witness for C6: a failing sections fetch leaves prior state intact;
a fully successful reload replaces all three slices. -/
theorem loadDocument_all_or_nothing_witness :
    ((loadDocument c6state (some c6doc) none (some [])).document = c6state.document ∧
      (loadDocument c6state (some c6doc) none (some [])).sections = c6state.sections ∧
      (loadDocument c6state (some c6doc) none (some [])).activeBindings
        = c6state.activeBindings ∧
      (loadDocument c6state (some c6doc) none (some [])).error = true) ∧
    ((loadDocument c6state (some c6doc) (some []) (some [])).document = some c6doc ∧
      (loadDocument c6state (some c6doc) (some []) (some [])).sections = [] ∧
      (loadDocument c6state (some c6doc) (some []) (some [])).activeBindings = [] ∧
      (loadDocument c6state (some c6doc) (some []) (some [])).error = false) :=
  ⟨(loadDocument_all_or_nothing c6state (some c6doc) none (some [])).1
      (Or.inr (Or.inl rfl)),
   (loadDocument_all_or_nothing c6state (some c6doc) (some []) (some [])).2
      c6doc [] [] rfl rfl rfl⟩

/-- Claim C5 (counterexample): with a loaded document holding the old
content, a failing `updateContent` surfaces an error but the local
snapshot still holds the old content, not the submitted payload. -/
theorem updateContent_rollback_cex :
    (updateContent c5state c5newContent false).result = none ∧
    (updateContent c5state c5newContent false).state.document
      = some { content := c5oldContent } ∧
    c5oldContent ≠ c5newContent := by decide

/-- Claim C5 (amended): `updateContent` issues exactly one persistence
call; the local snapshot is replaced only when the call succeeds, and
on failure an error is surfaced and the whole state is left unchanged
(the local snapshot keeps its previous content). -/
theorem updateContent_persist_first (st : DocState) (payload : ContentPayload) :
    (updateContent st payload true).state.document
        = st.document.map (fun d => { d with content := payload }) ∧
    (updateContent st payload true).calls = [.updateDocumentCall payload] ∧
    (updateContent st payload true).result = some () ∧
    (updateContent st payload false).state = st ∧
    (updateContent st payload false).calls = [.updateDocumentCall payload] ∧
    (updateContent st payload false).result = none := by
  unfold updateContent
  exact ⟨rfl, rfl, rfl, rfl, rfl, rfl⟩

/-- Claim C9: deactivating a section that is neither focused nor has an
active binding is a silent no-op: no persistence call, state unchanged,
no error. -/
theorem deactivateSection_nonfocused_noop
    (st : DocState) (sid : String) (updateOk : Bool)
    (hfoc : st.activeSectionId ≠ some sid)
    (hnb : ∀ b ∈ st.activeBindings, ¬(b.section_id = sid ∧ b.is_active = true)) :
    (deactivateSection st sid updateOk).state = st ∧
    (deactivateSection st sid updateOk).calls = [] ∧
    (deactivateSection st sid updateOk).result = some () := by
  have hfind : st.activeBindings.find?
      (fun b => decide (b.section_id = sid) && b.is_active) = none := by
    rw [List.find?_eq_none]
    intro b hb
    simp only [Bool.and_eq_true, decide_eq_true_eq, not_and]
    intro h1 h2
    exact hnb b hb ⟨h1, h2⟩
  unfold deactivateSection
  rw [hfind, if_neg hfoc]
  exact ⟨rfl, rfl, rfl⟩

/-- Witness for C9: deactivating the never-bound section `sZ` while
`sA` is focused changes nothing. -/
theorem deactivateSection_nonfocused_noop_witness :
    c9state.activeSectionId ≠ some "sZ" ∧
    ((deactivateSection c9state "sZ" true).state = c9state ∧
      (deactivateSection c9state "sZ" true).calls = [] ∧
      (deactivateSection c9state "sZ" true).result = some ()) :=
  ⟨by decide,
   deactivateSection_nonfocused_noop c9state "sZ" true (by decide) (by decide)⟩

/-- Claim C3: switching focus to `B` while `A` is focused with an
active binding issues exactly two persistence calls, in order: first
the deactivation of `A`'s binding (`is_active := false`), then the
creation of `B`'s binding. -/
theorem activateSection_switch_two_calls
    (st : DocState) (A B : String) (bt : BindingType) (msg : Option String)
    (createRes : Option SectionBinding)
    (hfoc : st.activeSectionId = some A) (_hAB : A ≠ B)
    (hex : ∃ b ∈ st.activeBindings, b.section_id = A ∧ b.is_active = true) :
    ∃ cb : SectionBinding, cb.section_id = A ∧ cb.is_active = true ∧
      (activateSection st B bt msg true createRes).calls =
        [PCall.updateBinding cb.id false, PCall.createBinding B bt msg] := by
  obtain ⟨cb, hfind, hA, hact⟩ := find_current_of_active st A hfoc hex
  refine ⟨cb, hA, hact, ?_⟩
  unfold activateSection
  rw [hfind]
  cases createRes with
  | none => rfl
  | some binding => rfl

/-- Witness for C3: switching from `sA` to `sB`. -/
theorem activateSection_switch_two_calls_witness :
    c2state.activeSectionId = some "sA" ∧ "sA" ≠ "sB" ∧
    ∃ cb : SectionBinding, cb.section_id = "sA" ∧ cb.is_active = true ∧
      (activateSection c2state "sB" .editing none true (some c1binding2)).calls =
        [PCall.updateBinding cb.id false, PCall.createBinding "sB" .editing none] :=
  ⟨rfl, by decide,
   activateSection_switch_two_calls c2state "sA" "sB" .editing none (some c1binding2)
     rfl (by decide) ⟨c2binding, by decide, rfl, rfl⟩⟩

/-- Claim C2 (counterexample): with focus on `sA` (active binding
`bA`), a switch to `sB` whose deactivation succeeds but whose creation
call fails leaves `activeSectionId = some "sA"` — the controller does
not end in the Idle state the claim requires. -/
theorem activateSection_create_failure_cex :
    (activateSection c2state "sB" .editing none true none).state.activeSectionId
      = some "sA" ∧
    ¬((activateSection c2state "sB" .editing none true none).state.activeSectionId
      = none) ∧
    (activateSection c2state "sB" .editing none true none).result = none := by decide

/-- Claim C2 (amended): when the deactivation succeeds but the creation
call fails, `activateSection` surfaces an error, issues no further
persistence call (in particular it does not resurrect the previous
binding), and leaves the local state — including `activeSectionId`,
which still points at the previous section — entirely unchanged, rather
than transitioning to Idle. -/
theorem activateSection_create_failure_state
    (st : DocState) (A B : String) (bt : BindingType) (msg : Option String)
    (hfoc : st.activeSectionId = some A)
    (hex : ∃ b ∈ st.activeBindings, b.section_id = A ∧ b.is_active = true) :
    (activateSection st B bt msg true none).result = none ∧
    (activateSection st B bt msg true none).state = st ∧
    (activateSection st B bt msg true none).state.activeSectionId = some A ∧
    ∃ cb : SectionBinding, cb.section_id = A ∧ cb.is_active = true ∧
      (activateSection st B bt msg true none).calls =
        [PCall.updateBinding cb.id false, PCall.createBinding B bt msg] := by
  obtain ⟨cb, hfind, hA, hact⟩ := find_current_of_active st A hfoc hex
  unfold activateSection
  rw [hfind]
  exact ⟨rfl, rfl, hfoc, cb, hA, hact, rfl⟩

/-- Witness for C2's amended theorem at the concrete `sA`-focused state. -/
theorem activateSection_create_failure_state_witness :
    c2state.activeSectionId = some "sA" ∧
    ((activateSection c2state "sB" .editing none true none).result = none ∧
      (activateSection c2state "sB" .editing none true none).state = c2state ∧
      (activateSection c2state "sB" .editing none true none).state.activeSectionId
        = some "sA" ∧
      ∃ cb : SectionBinding, cb.section_id = "sA" ∧ cb.is_active = true ∧
        (activateSection c2state "sB" .editing none true none).calls =
          [PCall.updateBinding cb.id false, PCall.createBinding "sB" .editing none]) :=
  ⟨rfl,
   activateSection_create_failure_state c2state "sA" "sB" .editing none rfl
     ⟨c2binding, by decide, rfl, rfl⟩⟩

/-- Claim C4 (counterexample): deleting section `s1`, which holds the
active binding, succeeds; the controller goes Idle and the section list
drops `s1`, but the binding is still in `activeBindings` with
`is_active = true`, and the only persistence call is the section
delete — no binding deactivation happens. -/
theorem deleteSection_binding_retained_cex :
    (deleteSection c4state "s1" true).state.activeSectionId = none ∧
    (deleteSection c4state "s1" true).state.sections = [] ∧
    c4binding ∈ (deleteSection c4state "s1" true).state.activeBindings ∧
    c4binding.is_active = true ∧
    (deleteSection c4state "s1" true).calls = [PCall.deleteSectionCall "s1"] := by decide

/-- Claim C4 (amended): a successful `deleteSection` of the section
holding the active binding leaves the controller Idle
(`activeSectionId = none`) and removes the section from the section
list, but it leaves the binding ledger untouched: the deleted section's
binding stays in `activeBindings` unchanged (still active), and no
binding deactivation is persisted. -/
theorem deleteSection_active_section (st : DocState) (sid : String)
    (hfoc : st.activeSectionId = some sid) :
    (deleteSection st sid true).state.activeSectionId = none ∧
    (deleteSection st sid true).state.sections
        = st.sections.filter (fun s => decide (s.id ≠ sid)) ∧
    (deleteSection st sid true).state.activeBindings = st.activeBindings ∧
    (deleteSection st sid true).calls = [PCall.deleteSectionCall sid] := by
  unfold deleteSection
  rw [if_pos rfl]
  exact ⟨by rw [if_pos hfoc], rfl, rfl, rfl⟩

/-- Witness for C4's amended theorem at the concrete bound state. -/
theorem deleteSection_active_section_witness :
    c4state.activeSectionId = some "s1" ∧
    ((deleteSection c4state "s1" true).state.activeSectionId = none ∧
      (deleteSection c4state "s1" true).state.sections
        = c4state.sections.filter (fun s => decide (s.id ≠ "s1")) ∧
      (deleteSection c4state "s1" true).state.activeBindings = c4state.activeBindings ∧
      (deleteSection c4state "s1" true).calls = [PCall.deleteSectionCall "s1"]) :=
  ⟨rfl, deleteSection_active_section c4state "s1" rfl⟩

/-- Claim C1: after `activateSection("s1")` then `activateSection("s2")`
(all persistence calls succeeding), the local binding ledger holds two
bindings with `is_active = true`: the `s1` binding was deactivated on
the server (the `updateBinding` call was issued) but its local record
was never flipped, so the binding created for `s1` is still active in
`activeBindings`, violating the at-most-one-active invariant. -/
theorem activate_switch_two_active_bindings :
    (c1state2.activeBindings.filter (fun b => b.is_active)).length = 2 ∧
    c1binding1 ∈ c1state2.activeBindings ∧
    c1binding1.is_active = true ∧
    c1binding2 ∈ c1state2.activeBindings ∧
    c1state2.activeSectionId = some "s2" ∧
    (activateSection c1state1 "s2" .editing none true (some c1binding2)).calls =
      [PCall.updateBinding "b1" false, PCall.createBinding "s2" .editing none] := by
  decide

end CIN
